import Mathlib

/-!
Verification of the `agstack.infra` lifecycle helpers.

The repository consists of two modules:
  * `src/agstack/infra/db/__init__.py` — `setup_db`, `shutdown_db`
  * `src/agstack/infra/es/__init__.py` — `setup_es`, `shotdown_es`

Each helper assembles arguments and delegates to an external library call
(`init_db`/`close_db` from `sqlobjects.database`, and the
`async_connections` registry of `elasticsearch.dsl`).

Embedding:
  * the argument assembly of each setup function is a pure function
    producing a record of the external call it makes
    (`InitDbCall`, `CreateConnectionCall`);
  * Python default arguments (`echo: bool = False`, ...) are embedded as
    `Option` parameters where `none` means "argument omitted by the
    caller", resolved with `Option.getD` to the default written in the
    Python signature;
  * `**engine_kwargs` is a list of extra keyword/value pairs;
  * each coroutine body is a `Prog` value: a free-monad style program
    over external calls, distinguishing an ordinary synchronous call
    (`Prog.sync`) from an awaited coroutine (`Prog.await`);
  * `runProg` gives trace semantics (an awaited call that never resolves
    makes the whole coroutine never complete — result `none`), and
    `runExcept` gives error-propagation semantics (an external call that
    raises makes the helper raise the same error, unmodified).
-/

namespace AgStack

/-- Record of the keyword arguments of a call to the external engine
initializer `init_db` (first positional argument `url`, then the keyword
arguments exactly as written in `setup_db`). -/
structure InitDbCall where
  url : String
  echo : Bool
  pool_size : Int
  max_overflow : Int
  pool_timeout : Int
  pool_recycle : Int
  engine_kwargs : List (String × String)
  deriving DecidableEq

/-- Record of the keyword arguments of the
`async_connections.connections.create_connection` call made by
`setup_es`, field for field in source order. Timeouts are `float` in the
source; since they are only forwarded (never computed with), they are
embedded as rationals. -/
structure CreateConnectionCall where
  hosts : String
  verify_certs : Bool
  request_timeout : Rat
  sniff_on_start : Bool
  sniff_timeout : Rat
  sniff_on_node_failure : Bool
  http_auth : String × String
  deriving DecidableEq

/-- The external calls the two modules can make. `conn_close` carries the
handle of the connection being closed (external handles are embedded as
`Nat`). -/
inductive ExtCall where
  | init_db (c : InitDbCall)
  | close_db
  | create_connection (c : CreateConnectionCall)
  | get_connection_default
  | conn_close (conn : Nat)
  deriving DecidableEq

/-- A coroutine body: either finished with a value, or an ordinary
synchronous external call followed by a continuation on its result, or an
awaited external coroutine followed by a continuation on its result. -/
inductive Prog (α : Type) where
  | pure (a : α)
  | sync (c : ExtCall) (k : Nat → Prog α)
  | await (c : ExtCall) (k : Nat → Prog α)

/-- Trace semantics. `rs` gives the result of a synchronous call (those
return immediately); `ra` gives the result of an awaited external
coroutine, `none` meaning that coroutine never resolves. The run returns
`none` when the program suspends forever, otherwise the final value
together with the list of external calls made, in order. -/
def runProg {α : Type} (rs : ExtCall → Nat) (ra : ExtCall → Option Nat) :
    Prog α → Option (α × List ExtCall)
  | .pure a => some (a, [])
  | .sync c k => (runProg rs ra (k (rs c))).map (fun p => (p.1, c :: p.2))
  | .await c k =>
      match ra c with
      | none => none
      | some r => (runProg rs ra (k r)).map (fun p => (p.1, c :: p.2))

/-- Error-propagation semantics: every external call (synchronous or
awaited) may raise an error of type `ε`; the program performs no catching,
so the first error raised is the result of the whole helper, unmodified. -/
def runExcept {ε α : Type} (ext : ExtCall → Except ε Nat) :
    Prog α → Except ε α
  | .pure a => .ok a
  | .sync c k => (ext c).bind (fun r => runExcept ext (k r))
  | .await c k => (ext c).bind (fun r => runExcept ext (k r))

/-- The f-string of `setup_db` (db/__init__.py line 20):
`f"postgresql+asyncpg://{username}:{password}@{host}/{database}"`,
a raw character-for-character substitution with no escaping. -/
def db_url (username password host database : String) : String :=
  "postgresql+asyncpg://" ++ username ++ ":" ++ password ++ "@" ++ host
    ++ "/" ++ database

/-- Argument assembly of `setup_db` (db/__init__.py lines 8–29): builds
the URL and the keyword arguments of the `init_db` call. `none` in an
optional parameter means the caller omitted it, so the default of the
Python signature applies. -/
def setup_db (username password host database : String)
    (echo : Option Bool) (pool_size : Option Int) (max_overflow : Option Int)
    (pool_timeout : Option Int) (pool_recycle : Option Int)
    (engine_kwargs : List (String × String)) : InitDbCall :=
  { url := db_url username password host database
    echo := echo.getD false
    pool_size := pool_size.getD 5
    max_overflow := max_overflow.getD 10
    pool_timeout := pool_timeout.getD 30
    pool_recycle := pool_recycle.getD 3600
    engine_kwargs := engine_kwargs }

/-- The coroutine body of `setup_db`: a single awaited call to the
external initializer `init_db`, then return (`None` in Python, `()`
here). -/
def setup_db_prog (username password host database : String)
    (echo : Option Bool) (pool_size : Option Int) (max_overflow : Option Int)
    (pool_timeout : Option Int) (pool_recycle : Option Int)
    (engine_kwargs : List (String × String)) : Prog Unit :=
  .await (.init_db (setup_db username password host database echo pool_size
    max_overflow pool_timeout pool_recycle engine_kwargs))
    (fun _ => .pure ())

/-- The coroutine body of `shutdown_db` (db/__init__.py lines 32–33):
`await close_db()` — one awaited external call with no arguments, then
return with no value. -/
def shutdown_db_prog : Prog Unit :=
  .await .close_db (fun _ => .pure ())

/-- Argument assembly of `setup_es` (es/__init__.py lines 6–18): the
keyword arguments of the `create_connection` call, in source order.
`verify_certs` and `sniff_on_node_failure` are hardcoded. -/
def setup_es (host username password : String) (timeout : Option Rat)
    (sniff_on_start : Option Bool) (sniff_timeout : Option Rat) :
    CreateConnectionCall :=
  { hosts := host
    verify_certs := false
    request_timeout := timeout.getD 3
    sniff_on_start := sniff_on_start.getD true
    sniff_timeout := sniff_timeout.getD 3
    sniff_on_node_failure := true
    http_auth := (username, password) }

/-- The coroutine body of `setup_es`: one ordinary synchronous call to the
registry's `create_connection` (not awaited), then return `None`. -/
def setup_es_prog (host username password : String) (timeout : Option Rat)
    (sniff_on_start : Option Bool) (sniff_timeout : Option Rat) :
    Prog Unit :=
  .sync (.create_connection (setup_es host username password timeout
    sniff_on_start sniff_timeout))
    (fun _ => .pure ())

/-- The coroutine body of `shotdown_es` (es/__init__.py lines 21–22):
`await async_connections.get_connection().close()` — a synchronous fetch
of the default registered connection, then an awaited close of exactly
that connection. -/
def shotdown_es_prog : Prog Unit :=
  .sync .get_connection_default
    (fun conn => .await (.conn_close conn) (fun _ => .pure ()))

/-- `true` exactly on connection-close events, used to state that a trace
closes a given set of connections and nothing else. -/
def isConnClose : ExtCall → Bool
  | .conn_close _ => true
  | _ => false

/-- A program that never reaches an `await` node, whatever the external
results are. -/
def neverAwaits {α : Type} : Prog α → Prop
  | .pure _ => True
  | .sync _ k => ∀ r, neverAwaits (k r)
  | .await _ _ => False

/-! Helper lemmas: closed-form runs of the four coroutine bodies. -/

theorem runProg_setup_db_eq (rs : ExtCall → Nat) (ra : ExtCall → Option Nat)
    (u p h d : String) (e : Option Bool) (ps mo pt pr : Option Int)
    (kw : List (String × String)) :
    runProg rs ra (setup_db_prog u p h d e ps mo pt pr kw) =
      (ra (ExtCall.init_db (setup_db u p h d e ps mo pt pr kw))).map
        (fun _ => ((), [ExtCall.init_db (setup_db u p h d e ps mo pt pr kw)])) := by
  cases hra : ra (ExtCall.init_db (setup_db u p h d e ps mo pt pr kw)) <;>
    simp [setup_db_prog, runProg, hra]

theorem runProg_shutdown_db_eq (rs : ExtCall → Nat) (ra : ExtCall → Option Nat) :
    runProg rs ra shutdown_db_prog =
      (ra ExtCall.close_db).map (fun _ => ((), [ExtCall.close_db])) := by
  cases hra : ra ExtCall.close_db <;> simp [shutdown_db_prog, runProg, hra]

theorem runProg_setup_es_eq (rs : ExtCall → Nat) (ra : ExtCall → Option Nat)
    (h u p : String) (t : Option Rat) (ss : Option Bool) (st : Option Rat) :
    runProg rs ra (setup_es_prog h u p t ss st) =
      some ((), [ExtCall.create_connection (setup_es h u p t ss st)]) := by
  simp [setup_es_prog, runProg]

theorem runProg_shotdown_es_eq (rs : ExtCall → Nat) (ra : ExtCall → Option Nat) :
    runProg rs ra shotdown_es_prog =
      (ra (ExtCall.conn_close (rs ExtCall.get_connection_default))).map
        (fun _ => ((), [ExtCall.get_connection_default,
          ExtCall.conn_close (rs ExtCall.get_connection_default)])) := by
  cases hra : ra (ExtCall.conn_close (rs ExtCall.get_connection_default)) <;>
    simp [shotdown_es_prog, runProg, hra]

theorem except_bind_ok_unit {ε : Type} (x : Except ε Nat) :
    x.bind (fun _ => Except.ok ()) = x.map (fun _ => ()) := by
  cases x <;> rfl

/-! Claim theorems. -/

/-- C1: for every username, password, host and database, `setup_db` builds
the connection URL `postgresql+asyncpg://` ++ username ++ `:` ++ password
++ `@` ++ host ++ `/` ++ database and passes exactly that URL (inside the
`init_db` call record, whose first field is the first positional argument)
to the external engine initializer; in particular
`setup("u","p","localhost","mydb")` yields
`postgresql+asyncpg://u:p@localhost/mydb`. -/
theorem setup_db_url_spec (u p h d : String) (e : Option Bool)
    (ps mo pt pr : Option Int) (kw : List (String × String))
    (rs : ExtCall → Nat) (ra : ExtCall → Option Nat) :
    (setup_db u p h d e ps mo pt pr kw).url =
        "postgresql+asyncpg://" ++ u ++ ":" ++ p ++ "@" ++ h ++ "/" ++ d ∧
    runProg rs ra (setup_db_prog u p h d e ps mo pt pr kw) =
      (ra (ExtCall.init_db (setup_db u p h d e ps mo pt pr kw))).map
        (fun _ => ((), [ExtCall.init_db (setup_db u p h d e ps mo pt pr kw)])) ∧
    (setup_db "u" "p" "localhost" "mydb" none none none none none []).url =
        "postgresql+asyncpg://u:p@localhost/mydb" :=
  ⟨rfl, runProg_setup_db_eq rs ra u p h d e ps mo pt pr kw, rfl⟩

/-- C2: `setup_db` forwards echo, pool_size, max_overflow, pool_timeout
and pool_recycle unchanged, under the same keyword names (the record
fields), together with every extra keyword argument verbatim, to the one
`init_db` call the coroutine makes. -/
theorem setup_db_forwards (u p h d : String) (e : Bool) (ps mo pt pr : Int)
    (kw : List (String × String)) (rs : ExtCall → Nat)
    (ra : ExtCall → Option Nat) :
    setup_db u p h d (some e) (some ps) (some mo) (some pt) (some pr) kw =
      { url := db_url u p h d, echo := e, pool_size := ps, max_overflow := mo,
        pool_timeout := pt, pool_recycle := pr, engine_kwargs := kw } ∧
    runProg rs ra
        (setup_db_prog u p h d (some e) (some ps) (some mo) (some pt) (some pr) kw) =
      (ra (ExtCall.init_db
          (setup_db u p h d (some e) (some ps) (some mo) (some pt) (some pr) kw))).map
        (fun _ => ((), [ExtCall.init_db
          (setup_db u p h d (some e) (some ps) (some mo) (some pt) (some pr) kw)])) :=
  ⟨rfl, runProg_setup_db_eq rs ra u p h d (some e) (some ps) (some mo) (some pt)
    (some pr) kw⟩

/-- C3: `setup_es` forwards host (as `hosts`), timeout (as
`request_timeout`), username and password (as the `http_auth` pair),
sniff_on_start and sniff_timeout unchanged to the registry's
`create_connection` call, together with the hardcoded
`verify_certs := false` and `sniff_on_node_failure := true`, and the
coroutine makes exactly that call. -/
theorem setup_es_forwards (h u p : String) (t : Rat) (ss : Bool) (st : Rat)
    (rs : ExtCall → Nat) (ra : ExtCall → Option Nat) :
    setup_es h u p (some t) (some ss) (some st) =
      { hosts := h, verify_certs := false, request_timeout := t,
        sniff_on_start := ss, sniff_timeout := st,
        sniff_on_node_failure := true, http_auth := (u, p) } ∧
    runProg rs ra (setup_es_prog h u p (some t) (some ss) (some st)) =
      some ((), [ExtCall.create_connection (setup_es h u p (some t) (some ss) (some st))]) :=
  ⟨rfl, runProg_setup_es_eq rs ra h u p (some t) (some ss) (some st)⟩

/-- C4: when the optional arguments are omitted (`none`), `setup_db` uses
echo := false, pool_size := 5, max_overflow := 10, pool_timeout := 30 and
pool_recycle := 3600, and `setup_es` uses request_timeout := 3,
sniff_on_start := true and sniff_timeout := 3. -/
theorem defaults_used (u p h d : String) (kw : List (String × String)) :
    setup_db u p h d none none none none none kw =
      { url := db_url u p h d, echo := false, pool_size := 5,
        max_overflow := 10, pool_timeout := 30, pool_recycle := 3600,
        engine_kwargs := kw } ∧
    setup_es h u p none none none =
      { hosts := h, verify_certs := false, request_timeout := 3,
        sniff_on_start := true, sniff_timeout := 3,
        sniff_on_node_failure := true, http_auth := (u, p) } :=
  ⟨rfl, rfl⟩

/-- C5: the `shutdown_db` coroutine takes no parameters (the program is a
closed constant), makes exactly one external call — `close_db`, a
constructor with no arguments — awaits it (the run completes exactly when
that awaited call resolves), and returns no value (`()`). -/
theorem shutdown_db_single_close (rs : ExtCall → Nat)
    (ra : ExtCall → Option Nat) :
    runProg rs ra shutdown_db_prog =
      (ra ExtCall.close_db).map (fun _ => ((), [ExtCall.close_db])) ∧
    [ExtCall.close_db].count ExtCall.close_db = 1 :=
  ⟨runProg_shutdown_db_eq rs ra, rfl⟩

/-- C6: `shotdown_es` fetches the default registered connection from the
registry (the synchronous `get_connection_default` call, whose result is
`rs ExtCall.get_connection_default`) and awaits the close of exactly that
connection once: the trace's only connection-close event is on that
handle, so no other connection is touched. -/
theorem shotdown_es_closes_default (rs : ExtCall → Nat)
    (ra : ExtCall → Option Nat) :
    runProg rs ra shotdown_es_prog =
      (ra (ExtCall.conn_close (rs ExtCall.get_connection_default))).map
        (fun _ => ((), [ExtCall.get_connection_default,
          ExtCall.conn_close (rs ExtCall.get_connection_default)])) ∧
    ([ExtCall.get_connection_default,
        ExtCall.conn_close (rs ExtCall.get_connection_default)].filter isConnClose)
      = [ExtCall.conn_close (rs ExtCall.get_connection_default)] := by
  refine ⟨runProg_shotdown_es_eq rs ra, ?_⟩
  simp [isConnClose]

/-- C7: under the error semantics, each of the four helpers raises exactly
the error of the external call it delegates to, unmodified (the run is the
external result itself, up to discarding the returned handle): an
operation errors if and only if its external call errors, with the same
error value. -/
theorem errors_propagate (ε : Type) (ext : ExtCall → Except ε Nat)
    (u p h d : String) (e : Option Bool) (ps mo pt pr : Option Int)
    (kw : List (String × String)) (eh eu ep : String) (t : Option Rat)
    (ss : Option Bool) (st : Option Rat) :
    runExcept ext (setup_db_prog u p h d e ps mo pt pr kw) =
      (ext (ExtCall.init_db (setup_db u p h d e ps mo pt pr kw))).map (fun _ => ()) ∧
    runExcept ext shutdown_db_prog =
      (ext ExtCall.close_db).map (fun _ => ()) ∧
    runExcept ext (setup_es_prog eh eu ep t ss st) =
      (ext (ExtCall.create_connection (setup_es eh eu ep t ss st))).map (fun _ => ()) ∧
    runExcept ext shotdown_es_prog =
      (ext ExtCall.get_connection_default).bind
        (fun c => (ext (ExtCall.conn_close c)).map (fun _ => ())) := by
  refine ⟨?_, ?_, ?_, ?_⟩
  · simp [setup_db_prog, runExcept, except_bind_ok_unit]
  · simp [shutdown_db_prog, runExcept, except_bind_ok_unit]
  · simp [setup_es_prog, runExcept, except_bind_ok_unit]
  · simp only [shotdown_es_prog, runExcept, except_bind_ok_unit]

/-- C8: `setup_db` completes exactly when the awaited `init_db` coroutine
resolves: its run equals the resolution of that one awaited call (so it is
`none` — the coroutine never completes — whenever the initializer never
resolves, as the second conjunct instantiates). -/
theorem setup_db_awaits_initializer (u p h d : String) (e : Option Bool)
    (ps mo pt pr : Option Int) (kw : List (String × String))
    (rs : ExtCall → Nat) (ra : ExtCall → Option Nat) :
    runProg rs ra (setup_db_prog u p h d e ps mo pt pr kw) =
      (ra (ExtCall.init_db (setup_db u p h d e ps mo pt pr kw))).map
        (fun _ => ((), [ExtCall.init_db (setup_db u p h d e ps mo pt pr kw)])) ∧
    runProg rs (fun _ => none) (setup_db_prog u p h d e ps mo pt pr kw) = none := by
  refine ⟨runProg_setup_db_eq rs ra u p h d e ps mo pt pr kw, ?_⟩
  simp [runProg_setup_db_eq]

/-- C9: `setup_es` never reaches an await node, and for every resolver —
including one under which no awaited coroutine ever resolves — its run
completes without suspending, makes only the synchronous
`create_connection` call, and yields `()` (Python `None`); hence no
connectivity failure can be observed by awaiting during setup. -/
theorem setup_es_never_awaits (eh eu ep : String) (t : Option Rat)
    (ss : Option Bool) (st : Option Rat) (rs : ExtCall → Nat)
    (ra : ExtCall → Option Nat) :
    neverAwaits (setup_es_prog eh eu ep t ss st) ∧
    runProg rs ra (setup_es_prog eh eu ep t ss st) =
      some ((), [ExtCall.create_connection (setup_es eh eu ep t ss st)]) := by
  refine ⟨?_, runProg_setup_es_eq rs ra eh eu ep t ss st⟩
  simp [setup_es_prog, neverAwaits]

/-- C10: `db_url` is the raw character-for-character concatenation of the
template and the four values, with no escaping; consequently it is not
injective — the two distinct credential tuples (`u`,`p@x`,`h`,`d`) and
(`u`,`p`,`x@h`,`d`), the first with an `@` in the password, produce the
same URL — so the URL's authority section cannot round-trip back to the
original credentials for both. -/
theorem db_url_no_escaping :
    (∀ u p h d : String, (db_url u p h d).data =
      "postgresql+asyncpg://".data ++ u.data ++ ":".data ++ p.data
        ++ "@".data ++ h.data ++ "/".data ++ d.data) ∧
    db_url "u" "p@x" "h" "d" = db_url "u" "p" "x@h" "d" ∧
    ("u", "p@x", "h", "d") ≠ ("u", "p", "x@h", "d") := by
  refine ⟨fun u p h d => ?_, rfl, by decide⟩
  simp [db_url, String.data_append]

end AgStack
